import Mathlib

/-!
Shallow embedding of the device-name-suffix resolution algorithm of
`src/CP210x/SerialDevice.cpp` (`coop_plausible_CP210x_SerialDevice::getDeviceNameSuffix`),
together with proofs of the specified properties.

Modelling conventions:
* C strings are modelled as Lean `String`s; `snprintf` into a buffer of
  `size` bytes is modelled by `snprintfTake size`, which keeps at most
  `size - 1` characters (the last byte holds the terminating NUL).
* `%x` rendering (unpadded lowercase hexadecimal) is modelled by `natToHex`.
* The string-descriptor fetch (`GetStringDescriptor`) is a caller-supplied
  capability `fetch : Nat → Option String`; `none` models an IOReturn error.
* Machine integers become `Nat`; the `unsigned32BitValue()` truncation of the
  location ID is the explicit `% 2 ^ 32`.
-/

namespace CP210x

/-- One lowercase hexadecimal digit character, as produced by `%x`:
`0`-`9` for values below ten, `a`-`f` otherwise (for digit values below 16). -/
def hexChar (d : Nat) : Char :=
  if d < 10 then Char.ofNat (48 + d) else Char.ofNat (87 + d)

/-- Fuel-driven most-significant-first base-16 digit expansion; with fuel
larger than `n` this computes the unpadded hexadecimal digit list of `n`. -/
def hexDigitsAux : Nat → Nat → List Char
  | 0, _ => []
  | fuel + 1, n =>
    if n < 16 then [hexChar n]
    else hexDigitsAux fuel (n / 16) ++ [hexChar (n % 16)]

/-- The unpadded lowercase hexadecimal digit list of `n` (`['0']` for 0). -/
def hexDigits (n : Nat) : List Char :=
  hexDigitsAux (n + 1) n

/-- `%x` rendering of a nonnegative value: unpadded lowercase hexadecimal. -/
def natToHex (n : Nat) : String :=
  ⟨hexDigits n⟩

/-- An entry of the default vendor/product identifier table (`usbdevs.h`). -/
structure usb_device_id where
  vendor : Nat
  product : Nat
deriving DecidableEq

/-- Modelled from the spec: the table `coop_plausible_driver_CP210x_default_ids`
lives in `usbdevs.h`, which is not part of the provided sources. The spec's
worked example states that vendor `0x10C4` / product `0xEA60` is a default-ID
entry, so the model carries that pair; theorems only assume membership via
`defaultEEPROMID`, never the concrete contents. -/
def coop_plausible_driver_CP210x_default_ids : List usb_device_id :=
  [⟨0x10C4, 0xEA60⟩]

/-- Modelled from the spec: `SILABS_DEFAULT_EEPROM_SERIAL` is defined in
`usbdevs.h`, which is not part of the provided sources. Both the spec and the
driver's own doc comment state the CP210x factory-default serial is `0001`. -/
def SILABS_DEFAULT_EEPROM_SERIAL : String := "0001"

/-- The default-ID scan of `getDeviceNameSuffix` (SerialDevice.cpp lines
129-140): the device uses default EEPROM identifiers iff some table entry
matches both the vendor and the product ID exactly. -/
def defaultEEPROMID (vendorId prodId : Nat) : Bool :=
  coop_plausible_driver_CP210x_default_ids.any
    fun d => vendorId == d.vendor && prodId == d.product

/-- `snprintf` into a `size`-byte buffer keeps at most `size - 1` characters
of the formatted output; the final byte is the terminating NUL. -/
def snprintfTake (size : Nat) (s : String) : String :=
  ⟨s.data.take (size - 1)⟩

/-- The serial-number tier (SerialDevice.cpp lines 142-163): if the device
declares a serial-number string index (`idx != 0`), fetch it; the fetched
string becomes the candidate iff the fetch succeeded, the string is non-empty
(`strnlen > 0`), and — when default EEPROM IDs are in use — the string is not
the factory-default serial (`strcmp != 0`). -/
def serialTier (defaultEEPROMID : Bool) (serialIdx : Nat)
    (fetch : Nat → Option String) : Option String :=
  if serialIdx ≠ 0 then
    match fetch serialIdx with
    | some serialStr =>
      if serialStr.length > 0 then
        if !defaultEEPROMID || serialStr ≠ SILABS_DEFAULT_EEPROM_SERIAL then
          some serialStr
        else
          none
      else
        none
    | none => none
  else
    none

/-- The location-ID tier (SerialDevice.cpp lines 167-175): if the location
property is present, render its 32-bit value in hex into a 9-byte buffer
(`snprintf(locStr, sizeof(locStr), "%x", location->unsigned32BitValue())`). -/
def locationTier (locationId : Option Nat) : Option String :=
  match locationId with
  | some location => some (snprintfTake 9 (natToHex (location % 2 ^ 32)))
  | none => none

/-- The tier-selected candidate: the serial-number tier if it produced a
string, otherwise the location-ID tier (the source's successive
`if (result == NULL)` blocks). -/
def candidate (vendorId prodId serialIdx : Nat) (fetch : Nat → Option String)
    (locationId : Option Nat) : Option String :=
  match serialTier (defaultEEPROMID vendorId prodId) serialIdx fetch with
  | some r => some r
  | none => locationTier locationId

/-- `getDeviceNameSuffix` (SerialDevice.cpp lines 119-194). If no tier
produced a candidate the function bails out early with the literal
`"unknown"` (line 180); otherwise the interface number is appended in hex
into a buffer of `result->getLength() + 3 + 1` bytes (lines 184-191). -/
def getDeviceNameSuffix (vendorId prodId serialIdx : Nat)
    (fetch : Nat → Option String) (locationId : Option Nat)
    (interfaceNumber : Nat) : String :=
  match candidate vendorId prodId serialIdx fetch locationId with
  | none => "unknown"
  | some result =>
    snprintfTake (result.length + 3 + 1) (result ++ natToHex interfaceNumber)

/-! ### Properties of the hexadecimal rendering -/

theorem hexDigitsAux_stable :
    ∀ f₁ f₂ n : Nat, n < f₁ → n < f₂ → hexDigitsAux f₁ n = hexDigitsAux f₂ n := by
  intro f₁
  induction f₁ with
  | zero => intro f₂ n h₁; omega
  | succ g₁ ih =>
    intro f₂ n h₁ h₂
    cases f₂ with
    | zero => omega
    | succ g₂ =>
      simp only [hexDigitsAux]
      by_cases hn : n < 16
      · simp [hn]
      · simp only [if_neg hn]
        have hdiv : n / 16 < n := Nat.div_lt_self (by omega) (by omega)
        rw [ih g₂ (n / 16) (by omega) (by omega)]

theorem hexDigits_eq (n : Nat) :
    hexDigits n = if n < 16 then [hexChar n]
      else hexDigits (n / 16) ++ [hexChar (n % 16)] := by
  by_cases hn : n < 16
  · rw [if_pos hn]
    show hexDigitsAux (n + 1) n = _
    rw [hexDigitsAux.eq_2, if_pos hn]
  · rw [if_neg hn]
    show hexDigitsAux (n + 1) n = _
    rw [hexDigitsAux.eq_2, if_neg hn]
    have hdiv : n / 16 < n := Nat.div_lt_self (by omega) (by omega)
    rw [hexDigitsAux_stable n (n / 16 + 1) (n / 16) (by omega) (by omega)]
    rfl

theorem hexDigits_ne_nil (n : Nat) : hexDigits n ≠ [] := by
  rw [hexDigits_eq]
  by_cases hn : n < 16 <;> simp [hn]

theorem hexDigits_length_pos (n : Nat) : 0 < (hexDigits n).length := by
  have := hexDigits_ne_nil n
  exact List.length_pos.mpr this

theorem hexDigits_length_le :
    ∀ k n : Nat, n < 16 ^ (k + 1) → (hexDigits n).length ≤ k + 1 := by
  intro k
  induction k with
  | zero =>
    intro n hn
    rw [hexDigits_eq, if_pos (by simpa using hn)]
    simp
  | succ k ih =>
    intro n hn
    rw [hexDigits_eq]
    by_cases h16 : n < 16
    · simp [h16]
    · rw [if_neg h16]
      have hdiv : n / 16 < 16 ^ (k + 1) := by
        rw [Nat.div_lt_iff_lt_mul (by omega)]
        calc n < 16 ^ (k + 1 + 1) := hn
          _ = 16 ^ (k + 1) * 16 := by ring
      have := ih (n / 16) hdiv
      simp only [List.length_append, List.length_singleton]
      omega

theorem hexChar_inj :
    ∀ d, d < 16 → ∀ e, e < 16 → hexChar d = hexChar e → d = e := by decide

theorem hexDigits_inj : ∀ m n : Nat, hexDigits m = hexDigits n → m = n := by
  intro m
  induction m using Nat.strong_induction_on with
  | _ m ih =>
    intro n h
    rw [hexDigits_eq m, hexDigits_eq n] at h
    by_cases hm : m < 16 <;> by_cases hn : n < 16
    · rw [if_pos hm, if_pos hn] at h
      simp only [List.cons.injEq, and_true] at h
      exact hexChar_inj m hm n hn h
    · rw [if_pos hm, if_neg hn] at h
      have := congrArg List.length h
      simp only [List.length_singleton, List.length_append] at this
      have := hexDigits_length_pos (n / 16)
      omega
    · rw [if_neg hm, if_pos hn] at h
      have := congrArg List.length h
      simp only [List.length_singleton, List.length_append] at this
      have := hexDigits_length_pos (m / 16)
      omega
    · rw [if_neg hm, if_neg hn] at h
      have hlen : ([hexChar (m % 16)]).length = ([hexChar (n % 16)]).length := rfl
      obtain ⟨hpre, hlast⟩ := List.append_inj' h hlen
      have hdiv : m / 16 < m := Nat.div_lt_self (by omega) (by omega)
      have h₁ : m / 16 = n / 16 := ih (m / 16) hdiv (n / 16) hpre
      simp only [List.cons.injEq, and_true] at hlast
      have h₂ : m % 16 = n % 16 :=
        hexChar_inj (m % 16) (Nat.mod_lt _ (by omega)) (n % 16)
          (Nat.mod_lt _ (by omega)) hlast
      omega

theorem natToHex_inj {m n : Nat} (h : natToHex m = natToHex n) : m = n :=
  hexDigits_inj m n (congrArg String.data h)

theorem natToHex_length_le {k n : Nat} (h : n < 16 ^ (k + 1)) :
    (natToHex n).length ≤ k + 1 :=
  hexDigits_length_le k n h

theorem natToHex_ne_empty (n : Nat) : natToHex n ≠ "" := by
  intro h
  exact hexDigits_ne_nil n (congrArg String.data h)

/-! ### String-level helpers -/

theorem data_append (s t : String) : (s ++ t).data = s.data ++ t.data := by
  cases s; cases t; rfl

theorem length_data (s : String) : s.length = s.data.length := rfl

theorem string_length_pos {s : String} (h : s ≠ "") : 0 < s.length := by
  cases s with
  | mk l =>
    cases l with
    | nil => exact absurd (by decide) h
    | cons c cs => simp [String.length]

theorem snprintfTake_of_le {s : String} {size : Nat}
    (h : s.data.length ≤ size - 1) : snprintfTake size s = s := by
  cases s with
  | mk l =>
    unfold snprintfTake
    rw [List.take_of_length_le h]

/-- The interface-number rendering fits the `+ 3 + 1` staging buffer: for an
8-bit interface number the hex rendering is at most 2 characters, so no
truncation occurs. -/
theorem uniqueStr_eq {r : String} {i : Nat} (hi : i < 256) :
    snprintfTake (r.length + 3 + 1) (r ++ natToHex i) = r ++ natToHex i := by
  apply snprintfTake_of_le
  rw [data_append, List.length_append]
  have h2 : (natToHex i).length ≤ 2 := by
    apply natToHex_length_le (k := 1)
    norm_num
    omega
  have hh : (natToHex i).length = (natToHex i).data.length := rfl
  have hr : r.length = r.data.length := rfl
  omega

theorem locationTier_eq {a : Nat} (ha : a < 2 ^ 32) :
    locationTier (some a) = some (natToHex a) := by
  show some (snprintfTake 9 (natToHex (a % 2 ^ 32))) = some (natToHex a)
  rw [Nat.mod_eq_of_lt ha]
  rw [snprintfTake_of_le]
  have h8 : (natToHex a).length ≤ 8 := by
    apply natToHex_length_le (k := 7)
    norm_num
    omega
  have hh : (natToHex a).length = (natToHex a).data.length := rfl
  omega

theorem serialTier_zero (d : Bool) (f : Nat → Option String) :
    serialTier d 0 f = none := by
  simp [serialTier]

theorem serialTier_fetch_none {d : Bool} {s : Nat} {f : Nat → Option String}
    (hf : f s = none) : serialTier d s f = none := by
  unfold serialTier
  by_cases hs : s ≠ 0
  · rw [if_pos hs, hf]
  · rw [if_neg hs]

theorem serialTier_fetch_empty {d : Bool} {s : Nat} {f : Nat → Option String}
    (hf : f s = some "") : serialTier d s f = none := by
  unfold serialTier
  by_cases hs : s ≠ 0
  · rw [if_pos hs, hf]
    simp
  · rw [if_neg hs]

theorem serialTier_accepts {d : Bool} {s : Nat} {f : Nat → Option String}
    {str : String} (hs : s ≠ 0) (hf : f s = some str) (hne : str ≠ "")
    (hok : d = false ∨ str ≠ SILABS_DEFAULT_EEPROM_SERIAL) :
    serialTier d s f = some str := by
  unfold serialTier
  rw [if_pos hs, hf]
  have hlen : 0 < str.length := string_length_pos hne
  simp only [gt_iff_lt, hlen, if_true]
  rcases hok with h | h
  · simp [h]
  · simp [h]

theorem serialTier_rejects_default {s : Nat} {f : Nat → Option String}
    (hf : f s = some SILABS_DEFAULT_EEPROM_SERIAL) :
    serialTier true s f = none := by
  unfold serialTier
  by_cases hs : s ≠ 0
  · rw [if_pos hs, hf]
    simp
  · rw [if_neg hs]

theorem candidate_of_serial_none {v p s : Nat} {f : Nat → Option String}
    {l : Option Nat} (h : serialTier (defaultEEPROMID v p) s f = none) :
    candidate v p s f l = locationTier l := by
  unfold candidate
  rw [h]

theorem getDeviceNameSuffix_of_candidate {v p s i : Nat}
    {f : Nat → Option String} {l : Option Nat} {r : String}
    (h : candidate v p s f l = some r) (hi : i < 256) :
    getDeviceNameSuffix v p s f l i = r ++ natToHex i := by
  unfold getDeviceNameSuffix
  rw [h]
  exact uniqueStr_eq hi

/-- Shared helper: the resolver's output is never the empty string. -/
theorem suffix_ne_empty (v p s : Nat) (f : Nat → Option String)
    (l : Option Nat) (i : Nat) : getDeviceNameSuffix v p s f l i ≠ "" := by
  unfold getDeviceNameSuffix
  cases hc : candidate v p s f l with
  | none =>
    show ("unknown" : String) ≠ ""
    decide
  | some r =>
    unfold snprintfTake
    intro h
    have hdata := congrArg String.data h
    simp only [Nat.add_sub_cancel] at hdata
    have : ((r ++ natToHex i).data.take (r.length + 3)) = [] := hdata
    rw [List.take_eq_nil_iff] at this
    rcases this with h1 | h1
    · omega
    · rw [data_append] at h1
      have := hexDigits_ne_nil i
      simp only [List.append_eq_nil] at h1
      exact this h1.2

example : natToHex 0x1A200000 = "1a200000" := by decide
example : natToHex 0 = "0" := by decide
example : natToHex 255 = "ff" := by decide
example : getDeviceNameSuffix 0 0 0 (fun _ => none) none 0 = "unknown" := by decide
example : getDeviceNameSuffix 0x10C4 0xEA60 1 (fun _ => some "0001")
    (some 0x1A200000) 0 = "1a2000000" := by decide
example : getDeviceNameSuffix 1 1 1 (fun _ => some "A1B2C3") none 1 = "A1B2C31" := by
  decide

/-! ### Claim theorems -/

/-- C1 (counterexample): with no serial index and no location ID and
interface index 0, `getDeviceNameSuffix` returns `"unknown"`, not
`"unknown0"` as the claim states — the source bails out early on the
fallback path without appending the interface index (line 180). -/
theorem fallback_suffix_cex :
    getDeviceNameSuffix 0 0 0 (fun _ => none) none 0 = "unknown" ∧
      getDeviceNameSuffix 0 0 0 (fun _ => none) none 0 ≠ "unknown0" := by
  constructor <;> decide

/-- C1 (amended): when neither the serial-number tier nor the location-ID
tier produces a candidate, `getDeviceNameSuffix` returns the literal
`"unknown"` with no interface index appended, for every interface index. -/
theorem fallback_returns_unknown (v p i : Nat) (f : Nat → Option String) :
    getDeviceNameSuffix v p 0 f none i = "unknown" := by
  unfold getDeviceNameSuffix
  rw [candidate_of_serial_none (serialTier_zero _ f)]
  rfl

/-- C2 (counterexample): on the fallback path, two calls that differ only in
the interface index return the same suffix (`"unknown"` both times), so the
claimed uniqueness fails there. -/
theorem interface_collision_cex :
    getDeviceNameSuffix 0 0 0 (fun _ => none) none 0 =
      getDeviceNameSuffix 0 0 0 (fun _ => none) none 1 := by
  decide

/-- C2 (amended): whenever some tier produced a candidate, two calls with
identical identity, serial data and location but different (8-bit)
interface indices return different suffixes. -/
theorem interface_suffixes_differ (v p s i j : Nat) (f : Nat → Option String)
    (l : Option Nat) (hi : i < 256) (hj : j < 256) (hij : i ≠ j)
    (hc : (candidate v p s f l).isSome) :
    getDeviceNameSuffix v p s f l i ≠ getDeviceNameSuffix v p s f l j := by
  obtain ⟨r, hr⟩ := Option.isSome_iff_exists.mp hc
  rw [getDeviceNameSuffix_of_candidate hr hi,
      getDeviceNameSuffix_of_candidate hr hj]
  intro h
  apply hij
  have hd := congrArg String.data h
  rw [data_append, data_append] at hd
  exact hexDigits_inj i j (List.append_cancel_left hd)

/-- C2 (witness): with a present location ID, interface indices 0 and 1
yield different suffixes. -/
theorem interface_suffixes_differ_witness :
    getDeviceNameSuffix 0 0 0 (fun _ => none) (some 0) 0 ≠
      getDeviceNameSuffix 0 0 0 (fun _ => none) (some 0) 1 :=
  interface_suffixes_differ 0 0 0 0 1 (fun _ => none) (some 0)
    (by decide) (by decide) (by decide) (by decide)

/-- C3: for every input the resolver returns a non-empty string (totality —
it never raises an error — is witnessed by the return type `String`). -/
theorem resolveSuffix_ne_empty (v p s : Nat) (f : Nat → Option String)
    (l : Option Nat) (i : Nat) : getDeviceNameSuffix v p s f l i ≠ "" :=
  suffix_ne_empty v p s f l i

/-- C4: for a device whose vendor/product pair matches the default-ID table,
a fetched serial equal to the factory-default constant is rejected by the
serial tier, and resolution proceeds exactly as it would with no serial
index at all (location-ID tier, then fallback). -/
theorem default_serial_falls_through (v p s i : Nat)
    (f : Nat → Option String) (l : Option Nat)
    (hd : defaultEEPROMID v p = true)
    (hf : f s = some SILABS_DEFAULT_EEPROM_SERIAL) :
    serialTier (defaultEEPROMID v p) s f = none ∧
      getDeviceNameSuffix v p s f l i = getDeviceNameSuffix v p 0 f l i := by
  have hnone : serialTier (defaultEEPROMID v p) s f = none := by
    rw [hd]
    exact serialTier_rejects_default hf
  refine ⟨hnone, ?_⟩
  unfold getDeviceNameSuffix
  rw [candidate_of_serial_none hnone,
      candidate_of_serial_none (serialTier_zero _ f)]

/-- C4 (witness): the spec's worked example — vendor 0x10C4, product 0xEA60,
fetched serial "0001" — rejects the serial tier. -/
theorem default_serial_falls_through_witness :
    serialTier (defaultEEPROMID 0x10C4 0xEA60) 1 (fun _ => some "0001") =
        none ∧
      getDeviceNameSuffix 0x10C4 0xEA60 1 (fun _ => some "0001")
          (some 0x1A200000) 0 =
        getDeviceNameSuffix 0x10C4 0xEA60 0 (fun _ => some "0001")
          (some 0x1A200000) 0 :=
  default_serial_falls_through 0x10C4 0xEA60 1 0 (fun _ => some "0001")
    (some 0x1A200000) (by decide) rfl

/-- C5: when the serial-number tier succeeds (serial index present, fetch
succeeds with a non-empty string that is not a rejected factory default),
the returned value is exactly the serial string followed by the
lowercase-hex interface index; the right-hand side does not mention the
location ID, so the location tier is never consulted. -/
theorem serial_tier_result (v p s i : Nat) (f : Nat → Option String)
    (l : Option Nat) (str : String) (hs : s ≠ 0) (hf : f s = some str)
    (hne : str ≠ "")
    (hok : defaultEEPROMID v p = false ∨ str ≠ SILABS_DEFAULT_EEPROM_SERIAL)
    (hi : i < 256) :
    getDeviceNameSuffix v p s f l i = str ++ natToHex i := by
  apply getDeviceNameSuffix_of_candidate ?_ hi
  unfold candidate
  rw [serialTier_accepts hs hf hne hok]

/-- C5 (witness): the spec's worked example — serial "A1B2C3" with interface
index 1 yields "A1B2C31". -/
theorem serial_tier_result_witness :
    getDeviceNameSuffix 1 1 1 (fun _ => some "A1B2C3") none 1 =
        "A1B2C3" ++ natToHex 1 ∧
      "A1B2C3" ++ natToHex 1 = "A1B2C31" :=
  ⟨serial_tier_result 1 1 1 1 (fun _ => some "A1B2C3") none "A1B2C3"
      (by decide) rfl (by decide) (Or.inl (by decide)) (by decide),
    by decide⟩

/-- C6: with no usable serial number, two distinct present 32-bit location
IDs produce distinct pre-interface-suffix candidates (the unpadded
lowercase-hex rendering is injective). -/
theorem location_candidates_differ (v p s a b : Nat)
    (f : Nat → Option String)
    (hst : serialTier (defaultEEPROMID v p) s f = none)
    (ha : a < 2 ^ 32) (hb : b < 2 ^ 32) (hab : a ≠ b) :
    candidate v p s f (some a) ≠ candidate v p s f (some b) := by
  rw [candidate_of_serial_none hst, candidate_of_serial_none hst]
  rw [locationTier_eq ha, locationTier_eq hb]
  intro h
  simp only [Option.some.injEq] at h
  exact hab (natToHex_inj h)

/-- C6 (witness): location IDs 0x1A200000 and 0 give different candidates. -/
theorem location_candidates_differ_witness :
    candidate 0 0 0 (fun _ => none) (some 0x1A200000) ≠
      candidate 0 0 0 (fun _ => none) (some 0) :=
  location_candidates_differ 0 0 0 0x1A200000 0 (fun _ => none)
    (by decide) (by decide) (by decide) (by decide)

/-- C7: when the serial-number string-descriptor fetch fails, resolution is
not aborted: the result is exactly what it would be with no serial index
(location tier, then fallback), and it is still a (non-empty) string. -/
theorem fetch_failure_falls_through (v p s i : Nat)
    (f : Nat → Option String) (l : Option Nat) (hf : f s = none) :
    getDeviceNameSuffix v p s f l i = getDeviceNameSuffix v p 0 f l i ∧
      getDeviceNameSuffix v p s f l i ≠ "" := by
  constructor
  · unfold getDeviceNameSuffix
    rw [candidate_of_serial_none (serialTier_fetch_none hf),
        candidate_of_serial_none (serialTier_zero _ f)]
  · exact suffix_ne_empty v p s f l i

/-- C7 (witness): a failing fetch with a present location ID still resolves. -/
theorem fetch_failure_falls_through_witness :
    getDeviceNameSuffix 1 1 1 (fun _ => none) (some 5) 0 =
        getDeviceNameSuffix 1 1 0 (fun _ => none) (some 5) 0 ∧
      getDeviceNameSuffix 1 1 1 (fun _ => none) (some 5) 0 ≠ "" :=
  fetch_failure_falls_through 1 1 1 0 (fun _ => none) (some 5) rfl

/-- C8 (counterexample): a successfully fetched string consisting of a single
space survives the `strnlen > 0` check and becomes the candidate — the code
does not trim whitespace, contradicting the claim that whitespace-only
strings are skipped. -/
theorem whitespace_serial_cex :
    serialTier (defaultEEPROMID 0 0) 1 (fun _ => some " ") = some " " ∧
      getDeviceNameSuffix 0 0 1 (fun _ => some " ") none 0 = " 0" := by
  constructor <;> decide

/-- C8 (amended): the serial-number tier is skipped whenever the fetched
string is empty (no trimming is applied; a whitespace-only string is
accepted as the candidate). -/
theorem empty_serial_skipped (v p s i : Nat) (f : Nat → Option String)
    (l : Option Nat) (hf : f s = some "") :
    getDeviceNameSuffix v p s f l i = getDeviceNameSuffix v p 0 f l i := by
  unfold getDeviceNameSuffix
  rw [candidate_of_serial_none (serialTier_fetch_empty hf),
      candidate_of_serial_none (serialTier_zero _ f)]

/-- C8 (witness): an empty fetched serial falls through to the other tiers. -/
theorem empty_serial_skipped_witness :
    getDeviceNameSuffix 1 1 1 (fun _ => some "") none 3 =
      getDeviceNameSuffix 1 1 0 (fun _ => some "") none 3 :=
  empty_serial_skipped 1 1 1 3 (fun _ => some "") none rfl

/-- C9: the resolver is deterministic — it is a pure function of its
arguments, and its output depends on the fetch capability only through the
values that capability returns. -/
theorem resolveSuffix_deterministic (v p s i : Nat)
    (f g : Nat → Option String) (l : Option Nat) (hfg : ∀ x, f x = g x) :
    getDeviceNameSuffix v p s f l i = getDeviceNameSuffix v p s g l i := by
  have h : f = g := funext hfg
  rw [h]

/-- C9 (witness): two identically-behaving fetch capabilities give the same
result. -/
theorem resolveSuffix_deterministic_witness :
    getDeviceNameSuffix 0 0 0 (fun _ => none) none 0 =
      getDeviceNameSuffix 0 0 0 (fun _ => none) none 0 :=
  resolveSuffix_deterministic 0 0 0 0 (fun _ => none) (fun _ => none) none
    (fun _ => rfl)

/-- C10: for an 8-bit interface number the hex rendering is at most two
characters, so the `candidate length + 3 + 1` staging buffer never
truncates: whenever a candidate exists the returned suffix is the exact
concatenation of the candidate and the hex interface index. -/
theorem interface_hex_fits_buffer (v p s i : Nat) (f : Nat → Option String)
    (l : Option Nat) (r : String) (hi : i < 256)
    (hc : candidate v p s f l = some r) :
    (natToHex i).length ≤ 2 ∧
      getDeviceNameSuffix v p s f l i = r ++ natToHex i := by
  constructor
  · apply natToHex_length_le (k := 1)
    norm_num
    omega
  · exact getDeviceNameSuffix_of_candidate hc hi

/-- C10 (witness): the largest 8-bit interface number, 255, renders as "ff"
and is appended untruncated. -/
theorem interface_hex_fits_buffer_witness :
    (natToHex 255).length ≤ 2 ∧
      getDeviceNameSuffix 0 0 0 (fun _ => none) (some 10) 255 =
        "a" ++ natToHex 255 :=
  interface_hex_fits_buffer 0 0 0 255 (fun _ => none) (some 10) "a"
    (by decide) (by decide)

end CP210x
